import Mathlib

/-!
A shallow embedding of the momentum-scan pipeline of `src/app.py`
(a single-script Streamlit momentum stock picker).

Modelling conventions:
* Python/numpy floats are modelled as rationals. A float NaN (a missing
  or non-computable indicator) is modelled as `none` of an optional
  rational; an IEEE comparison against NaN yields False, which the
  comparison helpers below reproduce by returning `false` on `none`.
* A yfinance fetch for one ticker either raises (modelled as the error
  case of an `Except`, carrying the exception text) or yields the
  downloaded series and the info mapping.
* The `try ... except Exception: continue` around the loop body catches
  every per-ticker exception and moves on; the per-ticker step below is
  therefore `Option`-valued and the loop a `filterMap`.
-/

namespace App

/-- Risk tolerance radio options, app.py lines 33-37. -/
inductive Risk where
  | Low
  | Medium
  | High
deriving DecidableEq

/-- The nullable fundamental attributes read from the yfinance info
mapping, app.py lines 88-92; a missing key is `none`. -/
structure Info where
  trailingPE : Option ℚ
  returnOnEquity : Option ℚ
  debtToEquity : Option ℚ
  marketCap : Option ℚ
deriving DecidableEq

/-- app.py lines 69-71: momentum over the lookback closes,
`(data[-1] / data[0] - 1) * 100`. On an empty download `data[-1]`
raises, which the scan loop catches: that is the `none` case. Any
non-empty series (even a single sample, even a zero first close) is
computed through. -/
def calculate_momentum (closes : List ℚ) : Option ℚ :=
  match closes.head?, closes.getLast? with
  | some first, some last => some ((last / first - 1) * 100)
  | _, _ => none

/-- pandas `Series.pct_change` on a clean numeric series: the list of
consecutive ratios minus 1. (The leading NaN entry that pandas keeps is
dropped here because `Series.mean` skips NaN entries anyway.) -/
def pct_changes : List ℚ → List ℚ
  | c0 :: c1 :: rest => (c1 / c0 - 1) :: pct_changes (c1 :: rest)
  | _ => []

/-- pandas `Series.mean`: NaN (`none`) on an empty series. -/
def seriesMean (xs : List ℚ) : Option ℚ :=
  if xs.isEmpty then none else some (xs.sum / xs.length)

/-- app.py line 84: the mock RSI, `70 - mean(pct_change(closes)) * 100`.
NaN when the 6-month history has fewer than 2 rows. -/
def mock_rsi (histCloses : List ℚ) : Option ℚ :=
  (seriesMean (pct_changes histCloses)).map (fun m => 70 - m * 100)

/-- app.py line 85: average volume in millions, `mean(volumes) / 1e6`.
NaN on an empty history. -/
def avg_volume_of (volumes : List ℚ) : Option ℚ :=
  (seriesMean volumes).map (fun m => m / 1000000)

/-- app.py line 89: `pe = info.get("trailingPE", nan)`. -/
def pe_of (info : Info) : Option ℚ := info.trailingPE

/-- app.py line 90:
`roe = info.get("returnOnEquity", nan) * 100 if info.get("returnOnEquity") else nan`.
The condition is Python truthiness of the attribute value, so a present
value of 0.0 is falsy and also yields NaN. -/
def roe_of (info : Info) : Option ℚ :=
  match info.returnOnEquity with
  | some r => if r = 0 then none else some (r * 100)
  | none => none

/-- app.py line 91: `de = info.get("debtToEquity", nan)`. -/
def de_of (info : Info) : Option ℚ := info.debtToEquity

/-- app.py line 92: `market_cap = info.get("marketCap", 0) / 1e9`.
The missing-key default here is 0, not NaN. -/
def market_cap_of (info : Info) : ℚ :=
  info.marketCap.getD 0 / 1000000000

/-- The user-set filter thresholds, app.py lines 50-64. -/
structure Filters where
  min_pe : ℚ
  min_roe : ℚ
  max_debt_equity : ℚ
  min_market_cap : ℚ
  min_rsi : ℚ
  min_volume : ℚ
deriving DecidableEq

/-- `x >= t` for a possibly-NaN `x`: a NaN compares false. (app.py uses
an explicit `if not isnan` guard for pe/roe and bare IEEE comparison for
rsi/volume; both give False on NaN.) -/
def geNaN (x : Option ℚ) (t : ℚ) : Bool :=
  match x with
  | some v => decide (t ≤ v)
  | none => false

/-- `x <= t` for a possibly-NaN `x`: a NaN compares false. -/
def leNaN (x : Option ℚ) (t : ℚ) : Bool :=
  match x with
  | some v => decide (v ≤ t)
  | none => false

/-- The indicator values the filter at app.py lines 95-102 reads for one
ticker: nullable, except `market_cap`, which line 92 has already
defaulted to 0 when missing. -/
structure Indicators where
  pe : Option ℚ
  roe : Option ℚ
  de : Option ℚ
  market_cap : ℚ
  rsi : Option ℚ
  avg_volume : Option ℚ
deriving DecidableEq

/-- app.py lines 95-102: the filter conjunction. -/
def keepFilter (f : Filters) (x : Indicators) : Bool :=
  geNaN x.pe f.min_pe &&
  geNaN x.roe f.min_roe &&
  leNaN x.de f.max_debt_equity &&
  decide (f.min_market_cap ≤ x.market_cap) &&
  geNaN x.rsi f.min_rsi &&
  geNaN x.avg_volume f.min_volume

/-- Everything yfinance hands one loop iteration for one ticker: the
lookback closes (line 70), the 6-month history closes and volumes
(lines 83-85), and the info mapping (line 88). -/
structure FetchedData where
  closes : List ℚ
  histCloses : List ℚ
  histVolumes : List ℚ
  info : Info
deriving DecidableEq

/-- One appended row of `momentum_data`, app.py lines 103-111. -/
structure Candidate where
  ticker : String
  momentum : ℚ
  rsi : Option ℚ
  volume : Option ℚ
  pe : Option ℚ
  roe : Option ℚ
  de : Option ℚ
deriving DecidableEq

/-- app.py lines 77-113: one iteration of the scan loop. A fetch error,
an empty momentum series, or a failed filter all leave `momentum_data`
unchanged (`none`); the `except` clause discards the exception text. -/
def processTicker (f : Filters) (ticker : String)
    (fetch : Except String FetchedData) : Option Candidate :=
  match fetch with
  | Except.error _ => none
  | Except.ok d =>
    match calculate_momentum d.closes with
    | none => none
    | some mom =>
      let rsi := mock_rsi d.histCloses
      let vol := avg_volume_of d.histVolumes
      let x : Indicators :=
        ⟨pe_of d.info, roe_of d.info, de_of d.info, market_cap_of d.info, rsi, vol⟩
      if keepFilter f x then
        some ⟨ticker, mom, rsi, vol, x.pe, x.roe, x.de⟩
      else
        none

/-- The scan loop body over a list of (ticker, fetch result) pairs. -/
def runLoop (f : Filters)
    (rows : List (String × Except String FetchedData)) : List Candidate :=
  rows.filterMap (fun r => processTicker f r.1 r.2)

/-- app.py line 76: `for ticker in tickers[:50]` -- the loop runs over at
most the first 50 tickers of the batch. -/
def momentum_data (f : Filters)
    (batch : List (String × Except String FetchedData)) : List Candidate :=
  runLoop f (batch.take 50)

/-- app.py lines 122-127: base allocation percentage per risk tier. -/
def risk_allocation : Risk → ℚ
  | Risk.Low => 5
  | Risk.Medium => 8
  | Risk.High => 12

/-- app.py line 130: `num_stocks = min(10, len(df))`. -/
def num_stocks (survivorCount : ℕ) : ℕ := min 10 survivorCount

/-- app.py line 131: `allocation = min(allocation, 100 / num_stocks)`. -/
def adjusted_allocation (tier : Risk) (survivorCount : ℕ) : ℚ :=
  min (risk_allocation tier) (100 / (num_stocks survivorCount : ℚ))

/-- Outcome of one scan: either the no-survivors warning followed by
`st.stop()` (app.py lines 115-117) or a portfolio with its allocation
numbers. Portfolio rows are kept in insertion order here: the pandas
sort at line 119 only permutes them and no settled claim depends on the
sorted order (its tie behaviour lives in pandas, not in this repo). -/
inductive ScanOutcome where
  | noSurvivors
  | portfolio (rows : List Candidate) (per_position_pct : ℚ) (position_count : ℕ)
deriving DecidableEq

/-- app.py lines 115-135: the scan after the loop. The branch order
matters: the emptiness guard runs before any allocation arithmetic. -/
def runScan (tier : Risk) (f : Filters)
    (batch : List (String × Except String FetchedData)) : ScanOutcome :=
  if (momentum_data f batch).isEmpty then ScanOutcome.noSurvivors
  else
    ScanOutcome.portfolio (momentum_data f batch)
      (adjusted_allocation tier (momentum_data f batch).length)
      (num_stocks (momentum_data f batch).length)

/-- Spec section 4.2 contract `filterAndRank`, filtering part: keep the
candidates on which every predicate of the set is true. The code's
instance is `keepFilter`, the conjunction of `codePredicates`. -/
def survivors {α : Type} (ps : List (α → Bool)) (cs : List α) : List α :=
  cs.filter (fun c => ps.all (fun p => p c))

/-- The six predicates of app.py lines 95-102 as a predicate list. -/
def codePredicates (f : Filters) : List (Indicators → Bool) :=
  [fun x => geNaN x.pe f.min_pe,
   fun x => geNaN x.roe f.min_roe,
   fun x => leNaN x.de f.max_debt_equity,
   fun x => decide (f.min_market_cap ≤ x.market_cap),
   fun x => geNaN x.rsi f.min_rsi,
   fun x => geNaN x.avg_volume f.min_volume]

/-- The default thresholds of app.py lines 50-64: min P/E 5, min ROE 10,
max D/E 2, min market cap 0.5 ($B), min RSI 40, min volume 0.5 (M). -/
def defaultFilters : Filters := ⟨5, 10, 2, 1/2, 40, 1/2⟩

/-- An info mapping with every attribute present and unobjectionable. -/
def goodInfo : Info := ⟨some 20, some (1/5), some 1, some 2000000000⟩

/-- A fetched ticker that passes every default filter: momentum 10,
mock RSI 70, average volume 2M. -/
def goodData : FetchedData := ⟨[100, 110], [100, 100], [2000000], goodInfo⟩

/-- An info mapping with every attribute missing. -/
def emptyInfo : Info := ⟨none, none, none, none⟩

/-- The row the good ticker contributes under the default thresholds. -/
def goodCandidate : Candidate :=
  ⟨"GOOD", 10, some 70, some 2, some 20, some 20, some 1⟩

theorem momentum_good : calculate_momentum [100, 110] = some 10 := by
  unfold calculate_momentum
  norm_num

theorem mock_rsi_good : mock_rsi [100, 100] = some 70 := by
  norm_num [mock_rsi, pct_changes, seriesMean]

theorem avg_volume_good : avg_volume_of [2000000] = some 2 := by
  norm_num [avg_volume_of, seriesMean]

theorem keepFilter_good :
    keepFilter defaultFilters ⟨some 20, some 20, some 1, 2, some 70, some 2⟩ = true := by
  norm_num [keepFilter, geNaN, leNaN, defaultFilters]

theorem processTicker_good :
    processTicker defaultFilters "GOOD" (Except.ok goodData) = some goodCandidate := by
  have hpe : pe_of goodInfo = some 20 := rfl
  have hroe : roe_of goodInfo = some 20 := by
    norm_num [roe_of, goodInfo]
  have hde : de_of goodInfo = some 1 := rfl
  have hmc : market_cap_of goodInfo = 2 := by
    norm_num [market_cap_of, goodInfo]
  simp only [processTicker, goodData, momentum_good, mock_rsi_good, avg_volume_good,
    hpe, hroe, hde, hmc, keepFilter_good, if_true, goodCandidate]

theorem momentum_data_good :
    momentum_data defaultFilters [("GOOD", Except.ok goodData)] = [goodCandidate] := by
  have ht : List.take 50
      ([("GOOD", Except.ok goodData)] : List (String × Except String FetchedData)) =
      [("GOOD", Except.ok goodData)] := rfl
  simp [momentum_data, ht, runLoop, processTicker_good]

theorem runScan_good :
    runScan Risk.Low defaultFilters [("GOOD", Except.ok goodData)] =
      ScanOutcome.portfolio [goodCandidate] 5 1 := by
  rw [runScan, momentum_data_good]
  norm_num [adjusted_allocation, num_stocks, risk_allocation, momentum_data_good]

/-- C1: for every risk tier and positive survivor count, the base
percentages are Low=5, Medium=8, High=12, the position count is
min(10, survivors), the adjusted per-position percentage is
min(base, 100/position_count), and their product never exceeds 100. -/
theorem C1_allocation_bound (tier : Risk) (n : ℕ) (h : 0 < n) :
    risk_allocation Risk.Low = 5 ∧ risk_allocation Risk.Medium = 8 ∧
    risk_allocation Risk.High = 12 ∧
    num_stocks n = min 10 n ∧
    adjusted_allocation tier n =
      min (risk_allocation tier) (100 / (num_stocks n : ℚ)) ∧
    adjusted_allocation tier n * (num_stocks n : ℚ) ≤ 100 := by
  refine ⟨rfl, rfl, rfl, rfl, rfl, ?_⟩
  have hk : 0 < num_stocks n := lt_min (by norm_num) h
  have hkq : (0 : ℚ) < (num_stocks n : ℚ) := by exact_mod_cast hk
  have h1 : adjusted_allocation tier n ≤ 100 / (num_stocks n : ℚ) :=
    min_le_right _ _
  calc adjusted_allocation tier n * (num_stocks n : ℚ)
      ≤ 100 / (num_stocks n : ℚ) * (num_stocks n : ℚ) :=
        mul_le_mul_of_nonneg_right h1 hkq.le
    _ = 100 := div_mul_cancel₀ 100 hkq.ne'

/-- C1 at tier High with 3 survivors (the spec's worked example:
position count 3, per-position 12, total 36). -/
theorem C1_allocation_bound_witness :
    0 < 3 ∧
    (risk_allocation Risk.Low = 5 ∧ risk_allocation Risk.Medium = 8 ∧
     risk_allocation Risk.High = 12 ∧
     num_stocks 3 = min 10 3 ∧
     adjusted_allocation Risk.High 3 =
       min (risk_allocation Risk.High) (100 / (num_stocks 3 : ℚ)) ∧
     adjusted_allocation Risk.High 3 * (num_stocks 3 : ℚ) ≤ 100) :=
  ⟨by norm_num, C1_allocation_bound Risk.High 3 (by norm_num)⟩

/-- C2: for every series with at least two samples and a non-zero first
close, the computed momentum is (last_close / first_close - 1) * 100. -/
theorem C2_momentum_formula (closes : List ℚ) (first_close last_close : ℚ)
    (hh : closes.head? = some first_close)
    (hl : closes.getLast? = some last_close)
    (_hlen : 2 ≤ closes.length) (_hfz : first_close ≠ 0) :
    calculate_momentum closes = some ((last_close / first_close - 1) * 100) := by
  unfold calculate_momentum
  rw [hh, hl]

/-- C2 at the spec's two worked examples: [100, 110] has momentum 10 and
[100, 90] has momentum -10. -/
theorem C2_momentum_formula_witness :
    calculate_momentum [100, 110] = some 10 ∧
    calculate_momentum [100, 90] = some (-10) := by
  constructor
  · have h := C2_momentum_formula [100, 110] 100 110 rfl rfl
      (by norm_num) (by norm_num)
    rw [h]; norm_num
  · have h := C2_momentum_formula [100, 90] 100 90 rfl rfl
      (by norm_num) (by norm_num)
    rw [h]; norm_num

/-- C3: the source guards neither a short series nor a zero first close.
A one-sample series yields momentum 0 rather than null/Unavailable, and
a series whose first close is 0 still yields a value -- the division is
performed (inf in floating point), not turned into Unavailable. -/
theorem C3_momentum_guards_absent :
    calculate_momentum [(100 : ℚ)] = some 0 ∧
    (calculate_momentum [(0 : ℚ), 110]).isSome = true := by
  constructor
  · unfold calculate_momentum
    norm_num
  · rfl

/-- Filters with the market-cap threshold set to 0 (the number input at
app.py line 54 accepts any value); the other thresholds are the defaults. -/
def zeroCapFilters : Filters := ⟨5, 10, 2, 0, 40, 1/2⟩

/-- An info mapping whose marketCap key is missing while every other
attribute is present with a passing value. -/
def noCapInfo : Info := ⟨some 20, some (1/5), some 1, none⟩

/-- C5 counterexample: with the market-cap threshold at 0, a candidate
whose marketCap attribute is missing passes every filter, because line
92 coerced the missing value to 0 rather than NaN. A candidate with a
missing indicator can therefore be kept. -/
theorem C5_missing_cap_kept :
    noCapInfo.marketCap = none ∧
    keepFilter zeroCapFilters
      ⟨pe_of noCapInfo, roe_of noCapInfo, de_of noCapInfo,
       market_cap_of noCapInfo, some 70, some 2⟩ = true := by
  refine ⟨rfl, ?_⟩
  norm_num [keepFilter, geNaN, leNaN, zeroCapFilters, noCapInfo,
    pe_of, roe_of, de_of, market_cap_of]

/-- C5 amended: a row is kept iff all six predicates hold, where each of
the five nullable indicators (P/E, ROE, D/E, RSI, volume) must be
present and meet its threshold -- a null among them is never kept --
while the market-cap predicate reads the already-coerced non-null value. -/
theorem C5_filter_conjunction (f : Filters) (x : Indicators) :
    (keepFilter f x = true ↔
      ((∃ p, x.pe = some p ∧ f.min_pe ≤ p) ∧
       (∃ r, x.roe = some r ∧ f.min_roe ≤ r) ∧
       (∃ d, x.de = some d ∧ d ≤ f.max_debt_equity) ∧
       f.min_market_cap ≤ x.market_cap ∧
       (∃ s, x.rsi = some s ∧ f.min_rsi ≤ s) ∧
       (∃ v, x.avg_volume = some v ∧ f.min_volume ≤ v))) ∧
    (x.pe = none ∨ x.roe = none ∨ x.de = none ∨ x.rsi = none ∨
        x.avg_volume = none →
      keepFilter f x = false) := by
  constructor
  · unfold keepFilter geNaN leNaN
    cases x.pe <;> cases x.roe <;> cases x.de <;> cases x.rsi <;>
      cases x.avg_volume <;> simp [and_assoc]
  · intro h
    rcases h with h | h | h | h | h <;> simp [keepFilter, geNaN, leNaN, h]

/-- C5's amended statement at a concrete kept row (the good ticker's
indicators under the default thresholds). -/
theorem C5_filter_conjunction_witness :
    keepFilter defaultFilters
        ⟨some 20, some 20, some 1, 2, some 70, some 2⟩ = true ↔
      ((∃ p, (some (20:ℚ) : Option ℚ) = some p ∧ defaultFilters.min_pe ≤ p) ∧
       (∃ r, (some (20:ℚ) : Option ℚ) = some r ∧ defaultFilters.min_roe ≤ r) ∧
       (∃ d, (some (1:ℚ) : Option ℚ) = some d ∧ d ≤ defaultFilters.max_debt_equity) ∧
       defaultFilters.min_market_cap ≤ (2:ℚ) ∧
       (∃ s, (some (70:ℚ) : Option ℚ) = some s ∧ defaultFilters.min_rsi ≤ s) ∧
       (∃ v, (some (2:ℚ) : Option ℚ) = some v ∧ defaultFilters.min_volume ≤ v)) :=
  (C5_filter_conjunction defaultFilters ⟨some 20, some 20, some 1, 2, some 70, some 2⟩).1

/-- C6 counterexample: a failing ticker leaves no trace. The scan output
over a batch with the failing ticker equals the output without it, so no
error reason is recorded or reported anywhere (app.py lines 112-113
discard the exception), while the ticker after the failure is still
processed (the second batch's survivor list is non-empty either way). -/
theorem C6_error_reason_discarded :
    momentum_data defaultFilters
        [("BAD", Except.error "HTTPError"), ("GOOD", Except.ok goodData)] =
      momentum_data defaultFilters [("GOOD", Except.ok goodData)] ∧
    momentum_data defaultFilters [("GOOD", Except.ok goodData)] ≠ [] := by
  have ht : List.take 50
      ([("BAD", Except.error "HTTPError"), ("GOOD", Except.ok goodData)] :
        List (String × Except String FetchedData)) =
      [("BAD", Except.error "HTTPError"), ("GOOD", Except.ok goodData)] := rfl
  have hb : processTicker defaultFilters "BAD" (Except.error "HTTPError") = none := rfl
  refine ⟨?_, by simp [momentum_data_good]⟩
  rw [momentum_data_good]
  simp [momentum_data, ht, runLoop, hb, processTicker_good]

/-- C6 amended: a per-ticker error excludes exactly that ticker -- the
loop output over a batch containing an erroring ticker equals the output
with that ticker removed, wherever it sits. The scan never aborts, every
other ticker is still processed, but the exception text e is discarded
rather than accumulated into any report. -/
theorem C6_error_skips_only_that_ticker (f : Filters)
    (pre post : List (String × Except String FetchedData)) (t e : String) :
    runLoop f (pre ++ (t, Except.error e) :: post) = runLoop f (pre ++ post) := by
  simp [runLoop, List.filterMap_append, List.filterMap_cons, processTicker]

/-- C7: the scan yields the no-survivors warning exactly when no
candidate passed the filters; whenever a portfolio is produced instead,
its position count is at least 1 and the per-position percentage was
computed by dividing 100 by that positive count, so the allocation
division never sees a zero divisor. -/
theorem C7_no_survivors_guard (tier : Risk) (f : Filters)
    (batch : List (String × Except String FetchedData)) :
    (runScan tier f batch = ScanOutcome.noSurvivors ↔
      momentum_data f batch = []) ∧
    (∀ rows pct k, runScan tier f batch = ScanOutcome.portfolio rows pct k →
      1 ≤ k ∧ pct = min (risk_allocation tier) (100 / (k : ℚ))) := by
  by_cases h : momentum_data f batch = []
  · constructor
    · simp [runScan, h]
    · intro rows pct k hk
      simp [runScan, h] at hk
  · have hne : (momentum_data f batch).isEmpty = false := by
      simp [List.isEmpty_iff, h]
    constructor
    · simp [runScan, hne, h]
    · intro rows pct k hk
      simp only [runScan, hne, Bool.false_eq_true, if_false,
        ScanOutcome.portfolio.injEq] at hk
      obtain ⟨hrows, hpct, hk2⟩ := hk
      subst hk2
      subst hpct
      have hlen : 1 ≤ (momentum_data f batch).length :=
        List.length_pos.mpr h
      exact ⟨le_min (by norm_num) hlen, rfl⟩

/-- C7 at two concrete scans: the empty batch warns NoSurvivors, and the
one-good-ticker batch produces a portfolio of one position. -/
theorem C7_no_survivors_guard_witness :
    runScan Risk.Low defaultFilters [] = ScanOutcome.noSurvivors ∧
    (1 ≤ 1 ∧ (5 : ℚ) = min (risk_allocation Risk.Low) (100 / ((1 : ℕ) : ℚ))) :=
  ⟨(C7_no_survivors_guard Risk.Low defaultFilters []).1.mpr rfl,
   (C7_no_survivors_guard Risk.Low defaultFilters
        [("GOOD", Except.ok goodData)]).2 [goodCandidate] 5 1 runScan_good⟩

/-- An info mapping whose returnOnEquity key is present with value 0. -/
def zeroRoeInfo : Info := ⟨none, some 0, none, none⟩

/-- C8 counterexample: a returnOnEquity that is present with value 0 is
falsy in Python, so line 90 takes the else branch and yields NaN instead
of multiplying: the attribute is present, yet roe is not 0 * 100. -/
theorem C8_present_zero_roe_not_scaled :
    zeroRoeInfo.returnOnEquity = some 0 ∧
    roe_of zeroRoeInfo ≠ some (0 * 100) := by
  refine ⟨rfl, ?_⟩
  simp [roe_of, zeroRoeInfo]

/-- C8 amended: the ROE pass-through multiplies by 100 exactly when the
returnOnEquity attribute is present AND non-zero (Python truthiness);
both a missing and a present-but-zero attribute propagate as NaN, and
the result is never a coercion to zero. -/
theorem C8_roe_passthrough (info : Info) :
    (∀ r, info.returnOnEquity = some r → r ≠ 0 → roe_of info = some (r * 100)) ∧
    (info.returnOnEquity = none → roe_of info = none) ∧
    (info.returnOnEquity = some 0 → roe_of info = none) ∧
    roe_of info ≠ some 0 := by
  cases h : info.returnOnEquity with
  | none =>
    have h0 : roe_of info = none := by
      unfold roe_of
      rw [h]
    simp [h0]
  | some r =>
    have h0 : roe_of info = if r = 0 then none else some (r * 100) := by
      unfold roe_of
      rw [h]
    by_cases hr : r = 0
    · subst hr
      rw [if_pos rfl] at h0
      exact ⟨fun r' hr' hne => (hne (Option.some.inj hr').symm).elim,
        fun hc => Option.noConfusion hc, fun _ => h0, by simp [h0]⟩
    · rw [if_neg hr] at h0
      refine ⟨fun r' hr' _ => by rw [h0, Option.some.inj hr'],
        fun hc => Option.noConfusion hc,
        fun hc => absurd (Option.some.inj hc) hr,
        fun hc => ?_⟩
      rw [h0] at hc
      rcases mul_eq_zero.mp (Option.some.inj hc) with h1 | h1
      · exact hr h1
      · norm_num at h1

/-- C8's amended statement applied at the good info (ROE attribute 1/5,
scaled to 20) and, for the null branches, nothing to discharge. -/
theorem C8_roe_passthrough_witness :
    (∀ r, goodInfo.returnOnEquity = some r → r ≠ 0 →
      roe_of goodInfo = some (r * 100)) ∧
    (goodInfo.returnOnEquity = none → roe_of goodInfo = none) ∧
    (goodInfo.returnOnEquity = some 0 → roe_of goodInfo = none) ∧
    roe_of goodInfo ≠ some 0 :=
  C8_roe_passthrough goodInfo

/-- C9: filtering is monotonic in the predicate set. Adding a predicate q
to any predicate set ps keeps the survivor list a sublist of the old
one, so the survivor count never increases; and the code's filter at
app.py lines 95-102 is precisely this conjunction semantics applied to
its six predicates. -/
theorem C9_filter_monotonic {α : Type} (ps : List (α → Bool)) (q : α → Bool)
    (cs : List α) (f : Filters) (xs : List Indicators) :
    List.Sublist (survivors (q :: ps) cs) (survivors ps cs) ∧
    (survivors (q :: ps) cs).length ≤ (survivors ps cs).length ∧
    survivors (codePredicates f) xs = xs.filter (keepFilter f) := by
  have hsub : List.Sublist (survivors (q :: ps) cs) (survivors ps cs) := by
    unfold survivors
    refine List.monotone_filter_right cs (fun a ha => ?_)
    rw [List.all_cons, Bool.and_eq_true] at ha
    exact ha.2
  refine ⟨hsub, hsub.length_le, ?_⟩
  unfold survivors
  refine List.filter_congr (fun x _ => ?_)
  simp only [codePredicates, keepFilter, List.all_cons, List.all_nil,
    Bool.and_true, Bool.and_assoc]

/-- C10: a missing marketCap attribute is coerced to 0 at app.py line 92
(not NaN), so such a candidate passes the market-cap comparison of the
filter iff the configured threshold is at most 0 -- unlike the other
fundamentals, whose absence propagates as NaN. -/
theorem C10_missing_marketcap_coerced_to_zero (info : Info) (f : Filters)
    (h : info.marketCap = none) :
    market_cap_of info = 0 ∧
    ((decide (f.min_market_cap ≤ market_cap_of info)) = true ↔
      f.min_market_cap ≤ 0) ∧
    (info.trailingPE = none → pe_of info = none) ∧
    (info.returnOnEquity = none → roe_of info = none) ∧
    (info.debtToEquity = none → de_of info = none) := by
  have h0 : market_cap_of info = 0 := by
    simp [market_cap_of, h]
  refine ⟨h0, by simp [h0], fun hp => hp, fun hr => by simp [roe_of, hr],
    fun hd => hd⟩

/-- C10 at an info with every attribute missing and the default
thresholds: market cap is read as 0 and 0.5 ≤ 0 fails, so the candidate
is excluded; the other pass-throughs stay NaN. -/
theorem C10_missing_marketcap_coerced_to_zero_witness :
    market_cap_of emptyInfo = 0 ∧
    ((decide (defaultFilters.min_market_cap ≤ market_cap_of emptyInfo)) = true ↔
      defaultFilters.min_market_cap ≤ 0) ∧
    (emptyInfo.trailingPE = none → pe_of emptyInfo = none) ∧
    (emptyInfo.returnOnEquity = none → roe_of emptyInfo = none) ∧
    (emptyInfo.debtToEquity = none → de_of emptyInfo = none) :=
  C10_missing_marketcap_coerced_to_zero emptyInfo defaultFilters rfl

end App
